import Mathlib

/-!
Shallow embedding of `src/scripts/security/penetration-testing.py`
(class `PenetrationTester`) and proofs about its probe modules.

The Python script drives HTTP probes against a black-box target.  We model
the target as a pure function `respond : Request → Except String Response`:
`.error e` models a `requests` exception whose `str(e)` is `e`, `.ok r`
models a completed HTTP response.  `Response.jsonBody` models the outcome
of `response.json()`: `.ok obj` is a parsed flat JSON object (every body
the script consults is a flat string-valued object), `.error e` is the
exception message raised on an unparseable body.

`datetime.now()` is modelled by a clock parameter `ts : Nat → Nat` giving
the timestamp attached to the n-th logged result; probe bodies produce
timestamp-free `ResultCore` records and `attachTimestamps` zips the clock
in, mirroring `log_result` stamping each appended record.

Python truthiness on tokens: `authenticate` may return `None` or a falsy
`''`; every caller only tests truthiness (`if not auth_token`), so both are
modelled as `none` (see `pyTruthy`).
-/

/-- Result status strings used by `log_result` calls in the script. -/
inductive Status where
  | VULNERABLE
  | SECURE
  | ERROR
  | SKIPPED
  | INFO
deriving DecidableEq, Repr

/-- Severity strings used by `log_result` calls in the script. -/
inductive Severity where
  | critical
  | high
  | medium
  | low
  | info
deriving DecidableEq, Repr

/-- One logged result without its timestamp (the fields of the dict built
by `log_result` other than `timestamp`). -/
structure ResultCore where
  test_name : String
  status : Status
  severity : Severity
  details : String
deriving DecidableEq, Repr

/-- One logged result as stored in `self.results`, timestamp included. -/
structure ProbeResult where
  timestamp : Nat
  test_name : String
  status : Status
  severity : Severity
  details : String
deriving DecidableEq, Repr

/-- Forget the `timestamp` field of a `ProbeResult`. -/
def stripTimestamp (r : ProbeResult) : ResultCore :=
  ⟨r.test_name, r.status, r.severity, r.details⟩

/-- Attach timestamps: the record at position `n` (counting from the given
start index) gets timestamp `ts n`, modelling `datetime.now()` at the n-th
`log_result` call of the run. -/
def attachTimestamps (ts : Nat → Nat) : Nat → List ResultCore → List ProbeResult
  | _, [] => []
  | n, r :: rs =>
    ⟨ts n, r.test_name, r.status, r.severity, r.details⟩ :: attachTimestamps ts (n + 1) rs

/-- An HTTP request as issued by the script: method, path relative to the
base URL (the empty path is the bare base URL used by the headers probe),
flat JSON body, and optional `Authorization` header value. -/
structure Request where
  method : String
  path : String
  jsonBody : List (String × String)
  authHeader : Option String
deriving DecidableEq, Repr

deriving instance DecidableEq for Except

/-- An HTTP response from the black-box target. -/
structure Response where
  status_code : Nat
  text : String
  headers : List (String × String)
  jsonBody : Except String (List (String × String))
deriving DecidableEq, Repr

/-- The black-box target: deterministic responses, transport errors as
`.error`. -/
abbrev Target := Request → Except String Response

/-- Does the character list `pat` occur at the head of `s`? -/
def leadsWith : List Char → List Char → Bool
  | [], _ => true
  | _ :: _, [] => false
  | a :: pat, b :: s => a == b && leadsWith pat s

/-- Does the character list `pat` occur contiguously anywhere in `s`? -/
def hasSub (pat : List Char) : List Char → Bool
  | [] => leadsWith pat []
  | b :: s => leadsWith pat (b :: s) || hasSub pat s

/-- Python's `pat in s` substring test on strings. -/
def strContains (s pat : String) : Bool :=
  hasSub pat.data s.data

/-- Python's `str.lower()` (ASCII case folding, as `String.toLower` but
written so the kernel can evaluate it). -/
def lowerString (s : String) : String :=
  ⟨s.data.map Char.toLower⟩

/-- Python's `dict.get` on a flat JSON object (first binding wins, as in a
dict there is at most one). -/
def jsonGet (obj : List (String × String)) (key : String) : Option String :=
  List.lookup key obj

/-- Collapse Python-falsy token values: `None` and `''` both fail the
`if not auth_token` checks at every call site, so both become `none`. -/
def pyTruthy : Option String → Option String
  | some "" => none
  | o => o

/-- Token extraction `result.get('token') or result.get('accessToken')`,
with Python truthiness on the `or`. -/
def tokenOf (obj : List (String × String)) : Option String :=
  match pyTruthy (jsonGet obj "token") with
  | some v => some v
  | none => pyTruthy (jsonGet obj "accessToken")

/-- The login request issued by `authenticate` (fixed test credentials). -/
def authRequest : Request :=
  ⟨"POST", "/api/auth/login",
    [("email", "test@example.com"), ("password", "testpassword123")], none⟩

/-- The ERROR record logged by `authenticate` when an exception is caught. -/
def authErrCore (e : String) : ResultCore :=
  ⟨"Authentication Error", .ERROR, .low, "Could not authenticate: " ++ e⟩

/-- `PenetrationTester.authenticate`: one login attempt.  Returns the token
(if any) and the results it appends to the collector. -/
def authenticate (respond : Target) : Option String × List ResultCore :=
  match respond authRequest with
  | .error e => (none, [authErrCore e])
  | .ok resp =>
    if resp.status_code = 200 then
      match resp.jsonBody with
      | .error e => (none, [authErrCore e])
      | .ok obj => (tokenOf obj, [])
    else
      (none, [])

/-! ## Brute-force / authentication probe (`test_authentication_security`) -/

/-- The i-th failed-login request of the brute-force loop
(`password = 'wrongpassword{i}'`). -/
def bruteRequest (i : Nat) : Request :=
  ⟨"POST", "/api/auth/login",
    [("email", "test@example.com"), ("password", "wrongpassword" ++ toString i)], none⟩

/-- Status of the i-th brute-force attempt, `none` on transport error. -/
def bruteStatus (respond : Target) (i : Nat) : Option Nat :=
  match respond (bruteRequest i) with
  | .ok resp => some resp.status_code
  | .error _ => none

/-- `log_result` record for the 429 branch of the brute-force loop. -/
def bruteSecureCore (fa : Nat) : ResultCore :=
  ⟨"Brute Force Protection", .SECURE, .info,
    "Rate limiting activated after " ++ toString fa ++ " attempts"⟩

/-- `log_result` record for the for-else branch of the brute-force loop. -/
def bruteVulnCore (fa : Nat) : ResultCore :=
  ⟨"Brute Force Protection", .VULNERABLE, .medium,
    "No rate limiting detected after " ++ toString fa ++ " failed attempts"⟩

/-- `log_result` record for the except branch of the brute-force loop. -/
def bruteErrCore (e : String) : ResultCore :=
  ⟨"Authentication Test Error", .ERROR, .low,
    "Error during brute force test: " ++ e⟩

/-- The `for i in range(10)` loop of `test_authentication_security`, over a
remaining list of attempt indices, carrying `failed_attempts`.  Returns the
logged results together with the number of attempts actually issued.
401 increments the counter; 429 logs SECURE and stops; a transport error
logs ERROR and stops; any other status just continues; loop exhaustion
(Python's `for`-`else`) logs VULNERABLE. -/
def bruteLoop (respond : Target) : List Nat → Nat → List ResultCore × Nat
  | [], fa => ([bruteVulnCore fa], 0)
  | i :: is, fa =>
    match respond (bruteRequest i) with
    | .error e => ([bruteErrCore e], 1)
    | .ok resp =>
      if resp.status_code = 401 then
        ((bruteLoop respond is (fa + 1)).1, (bruteLoop respond is (fa + 1)).2 + 1)
      else if resp.status_code = 429 then
        ([bruteSecureCore fa], 1)
      else
        ((bruteLoop respond is fa).1, (bruteLoop respond is fa).2 + 1)

/-- `PenetrationTester.test_authentication_security`. -/
def test_authentication_security (respond : Target) : List ResultCore :=
  (bruteLoop respond (List.range 10) 0).1

/-- Number of attempts the brute-force probe actually issues. -/
def bruteAttempts (respond : Target) : Nat :=
  (bruteLoop respond (List.range 10) 0).2

/-- Number of 401 responses among the first 10 brute-force attempts. -/
def brute401Count (respond : Target) : Nat :=
  (List.range 10).countP (fun i => bruteStatus respond i == some 401)

theorem bruteLoop_429 (respond : Target) :
    ∀ (is : List Nat) (fa k : Nat) (hk : k < is.length),
      (∀ j (hj : j < k), bruteStatus respond (is.get ⟨j, Nat.lt_trans hj hk⟩) = some 401) →
      bruteStatus respond (is.get ⟨k, hk⟩) = some 429 →
      bruteLoop respond is fa = ([bruteSecureCore (fa + k)], k + 1) := by
  intro is
  induction is with
  | nil => intro fa k hk; simp at hk
  | cons i is ih =>
    intro fa k hk h401 h429
    cases k with
    | zero =>
      simp only [List.get] at h429
      unfold bruteStatus at h429
      cases hresp : respond (bruteRequest i) with
      | error e => rw [hresp] at h429; simp at h429
      | ok resp =>
        rw [hresp] at h429
        simp only [Option.some.injEq] at h429
        simp [bruteLoop, hresp, h429]
    | succ k =>
      have h0 := h401 0 (Nat.succ_pos k)
      simp only [List.get] at h0
      unfold bruteStatus at h0
      cases hresp : respond (bruteRequest i) with
      | error e => rw [hresp] at h0; simp at h0
      | ok resp =>
        rw [hresp] at h0
        simp only [Option.some.injEq] at h0
        have hk' : k < is.length := Nat.lt_of_succ_lt_succ hk
        have step := ih (fa + 1) k hk'
          (fun j hj => h401 (j + 1) (Nat.succ_lt_succ hj))
          h429
        simp only [bruteLoop, hresp]
        rw [if_pos h0, step]
        have harith : fa + 1 + k = fa + (k + 1) := by omega
        rw [harith]

theorem bruteLoop_err (respond : Target) :
    ∀ (is : List Nat) (fa k : Nat) (hk : k < is.length) (e : String),
      (∀ j (hj : j < k), ∃ s, bruteStatus respond (is.get ⟨j, Nat.lt_trans hj hk⟩) = some s ∧ s ≠ 429) →
      respond (bruteRequest (is.get ⟨k, hk⟩)) = .error e →
      bruteLoop respond is fa = ([bruteErrCore e], k + 1) := by
  intro is
  induction is with
  | nil => intro fa k hk; simp at hk
  | cons i is ih =>
    intro fa k hk e hok herr
    cases k with
    | zero =>
      simp only [List.get] at herr
      simp [bruteLoop, herr]
    | succ k =>
      obtain ⟨s, hs, hs429⟩ := hok 0 (Nat.succ_pos k)
      simp only [List.get] at hs
      unfold bruteStatus at hs
      cases hresp : respond (bruteRequest i) with
      | error msg => rw [hresp] at hs; simp at hs
      | ok resp =>
        rw [hresp] at hs
        simp only [Option.some.injEq] at hs
        have hk' : k < is.length := Nat.lt_of_succ_lt_succ hk
        have hok' : ∀ j (hj : j < k), ∃ s, bruteStatus respond (is.get ⟨j, Nat.lt_trans hj hk'⟩) = some s ∧ s ≠ 429 :=
          fun j hj => hok (j + 1) (Nat.succ_lt_succ hj)
        simp only [List.get] at herr
        by_cases h401 : resp.status_code = 401
        · have step := ih (fa + 1) k hk' e hok' herr
          simp only [bruteLoop, hresp, if_pos h401, step]
        · have h429 : ¬ resp.status_code = 429 := by rw [← hs] at hs429; exact hs429
          have step := ih fa k hk' e hok' herr
          simp only [bruteLoop, hresp, if_neg h401, if_neg h429, step]

theorem bruteLoop_no429 (respond : Target) :
    ∀ (is : List Nat) (fa : Nat),
      (∀ i ∈ is, ∃ s, bruteStatus respond i = some s ∧ s ≠ 429) →
      bruteLoop respond is fa =
        ([bruteVulnCore (fa + is.countP (fun i => bruteStatus respond i == some 401))],
          is.length) := by
  intro is
  induction is with
  | nil => intro fa _; simp [bruteLoop]
  | cons i is ih =>
    intro fa hok
    obtain ⟨s, hs, hs429⟩ := hok i (List.mem_cons_self i is)
    unfold bruteStatus at hs
    cases hresp : respond (bruteRequest i) with
    | error msg => rw [hresp] at hs; simp at hs
    | ok resp =>
      rw [hresp] at hs
      simp only [Option.some.injEq] at hs
      have hok' : ∀ j ∈ is, ∃ s, bruteStatus respond j = some s ∧ s ≠ 429 :=
        fun j hj => hok j (List.mem_cons_of_mem i hj)
      have hcount : bruteStatus respond i = some resp.status_code := by
        unfold bruteStatus; rw [hresp]
      by_cases h401 : resp.status_code = 401
      · have step := ih (fa + 1) hok'
        simp only [bruteLoop, hresp]
        rw [if_pos h401, step]
        have hbeq : (bruteStatus respond i == some 401) = true := by
          rw [hcount, h401]; rfl
        simp only [List.countP_cons, hbeq, if_pos rfl, List.length_cons]
        have harith : fa + 1 + List.countP (fun i => bruteStatus respond i == some 401) is =
            fa + (List.countP (fun i => bruteStatus respond i == some 401) is + 1) := by omega
        rw [harith]
        simp
      · have h429 : ¬ resp.status_code = 429 := by rw [← hs] at hs429; exact hs429
        have step := ih fa hok'
        simp only [bruteLoop, hresp]
        rw [if_neg h401, if_neg h429, step]
        have hbeq : (bruteStatus respond i == some 401) = false := by
          rw [hcount]; simp [h401]
        simp only [List.countP_cons, hbeq, List.length_cons]
        simp

/-- A minimal response with a given status code. -/
def respOf (code : Nat) : Response :=
  ⟨code, "", [], .error "no body"⟩

/-- Stub target: 401 on the first nine login attempts, 429 on the tenth. -/
def brute429Target : Target :=
  fun req => if req = bruteRequest 9 then .ok (respOf 429) else .ok (respOf 401)

/-- Stub target: 401 on every request. -/
def brute401Target : Target :=
  fun _ => .ok (respOf 401)

/-- Stub target: 200 on every request. -/
def brute200Target : Target :=
  fun _ => .ok (respOf 200)

/-- Stub target: transport error on the fourth login attempt, 401 otherwise. -/
def bruteErrTarget : Target :=
  fun req => if req = bruteRequest 3 then .error "Connection refused" else .ok (respOf 401)

/-- C3: brute-force probe verdicts.  With 401 on the first nine attempts and
429 on the tenth, the probe emits exactly one SECURE/info result after all
ten attempts; with 401 on all ten attempts, exactly one VULNERABLE/medium
result; a transport error on attempt `k` (earlier attempts completing
without a 429) aborts the loop after `k + 1` attempts with exactly one
ERROR/low result and no SECURE or VULNERABLE verdict. -/
theorem brute_force_probe_verdicts (respond : Target) :
    ((∀ i, i < 9 → bruteStatus respond i = some 401) →
      bruteStatus respond 9 = some 429 →
      test_authentication_security respond = [bruteSecureCore 9] ∧ bruteAttempts respond = 10)
    ∧ ((∀ i, i < 10 → bruteStatus respond i = some 401) →
      test_authentication_security respond = [bruteVulnCore 10] ∧ bruteAttempts respond = 10)
    ∧ (∀ k e, k < 10 → respond (bruteRequest k) = .error e →
      (∀ j, j < k → bruteStatus respond j ≠ none ∧ bruteStatus respond j ≠ some 429) →
      test_authentication_security respond = [bruteErrCore e] ∧ bruteAttempts respond = k + 1) := by
  refine ⟨?_, ?_, ?_⟩
  · intro h401 h429
    have hk : 9 < (List.range 10).length := by simp
    have step := bruteLoop_429 respond (List.range 10) 0 9 hk
      (fun j hj => by rw [List.get_range]; exact h401 j hj)
      (by rw [List.get_range]; exact h429)
    unfold test_authentication_security bruteAttempts
    rw [step]
    simp
  · intro h401
    have step := bruteLoop_no429 respond (List.range 10) 0
      (fun i hi => by
        have hlt : i < 10 := by simpa using hi
        exact ⟨401, h401 i hlt, by omega⟩)
    unfold test_authentication_security bruteAttempts
    rw [step]
    have hcount : (List.range 10).countP (fun i => bruteStatus respond i == some 401) = 10 := by
      have := List.countP_eq_length (p := fun i => bruteStatus respond i == some 401)
        (l := List.range 10)
      rw [List.length_range] at this
      exact this.mpr (fun a ha => by
        have hlt : a < 10 := by simpa using ha
        rw [h401 a hlt]; rfl)
    rw [hcount]
    simp
  · intro k e hk10 herr hprior
    have hk : k < (List.range 10).length := by simpa using hk10
    have step := bruteLoop_err respond (List.range 10) 0 k hk e
      (fun j hj => by
        rw [List.get_range]
        obtain ⟨hne, h429⟩ := hprior j hj
        cases hst : bruteStatus respond j with
        | none => exact absurd hst hne
        | some s => exact ⟨s, rfl, fun hs => h429 (by rw [hst, hs])⟩)
      (by rw [List.get_range]; exact herr)
    unfold test_authentication_security bruteAttempts
    rw [step]
    simp

theorem brute_force_probe_verdicts_witness :
    (test_authentication_security brute429Target = [bruteSecureCore 9]
      ∧ bruteAttempts brute429Target = 10)
    ∧ (test_authentication_security brute401Target = [bruteVulnCore 10]
      ∧ bruteAttempts brute401Target = 10)
    ∧ (test_authentication_security bruteErrTarget = [bruteErrCore "Connection refused"]
      ∧ bruteAttempts bruteErrTarget = 4) :=
  ⟨(brute_force_probe_verdicts brute429Target).1 (by decide) (by decide),
   (brute_force_probe_verdicts brute401Target).2.1 (by decide),
   (brute_force_probe_verdicts bruteErrTarget).2.2 3 "Connection refused"
     (by decide) (by decide) (by decide)⟩

/-- C10: if no attempt returns 429 and none transport-errors, the
brute-force probe always runs all 10 attempts and emits exactly one
VULNERABLE/medium result whose details report the number of 401 responses
seen, which may be smaller than 10 (non-401/non-429 statuses such as 200
neither stop the loop nor increment the counter). -/
theorem brute_force_cap_without_429 (respond : Target)
    (hok : ∀ i, i < 10 → bruteStatus respond i ≠ none ∧ bruteStatus respond i ≠ some 429) :
    test_authentication_security respond = [bruteVulnCore (brute401Count respond)]
    ∧ brute401Count respond ≤ 10
    ∧ bruteAttempts respond = 10 := by
  have step := bruteLoop_no429 respond (List.range 10) 0
    (fun i hi => by
      have hlt : i < 10 := by simpa using hi
      obtain ⟨hne, h429⟩ := hok i hlt
      cases hst : bruteStatus respond i with
      | none => exact absurd hst hne
      | some s => exact ⟨s, rfl, fun hs => h429 (by rw [hst, hs])⟩)
  refine ⟨?_, ?_, ?_⟩
  · unfold test_authentication_security
    rw [step]
    simp [brute401Count]
  · unfold brute401Count
    have := List.countP_le_length (p := fun i => bruteStatus respond i == some 401)
      (l := List.range 10)
    simpa using this
  · unfold bruteAttempts
    rw [step]
    simp

theorem brute_force_cap_without_429_witness :
    test_authentication_security brute200Target = [bruteVulnCore (brute401Count brute200Target)]
    ∧ brute401Count brute200Target ≤ 10
    ∧ bruteAttempts brute200Target = 10 :=
  brute_force_cap_without_429 brute200Target (by decide)

/-! ## SQL-injection probe (`test_sql_injection`) -/

/-- `self.sql_payloads` from the script. -/
def sql_payloads : List String :=
  ["' OR '1'='1",
   "'; DROP TABLE users; --",
   "' UNION SELECT * FROM users --",
   "admin'--",
   "' OR 1=1 --"]

/-- The `error_indicators` list checked against the lowercased body. -/
def error_indicators : List String :=
  ["sql syntax", "mysql_fetch", "postgresql", "ora-",
   "microsoft jet database", "sqlite_", "syntax error"]

/-- The login request for one SQL payload (`email = 'admin{payload}'`). -/
def sqlRequest (payload : String) : Request :=
  ⟨"POST", "/api/auth/login", [("email", "admin" ++ payload), ("password", "password")], none⟩

/-- Does the lowercased body contain one of the database-error signatures? -/
def sigMatchResp (resp : Response) : Bool :=
  error_indicators.any (fun ind => strContains (lowerString resp.text) ind)

/-- Signature match lifted to a possibly-failed request. -/
def sigMatches (r : Except String Response) : Bool :=
  match r with
  | .ok resp => sigMatchResp resp
  | .error _ => false

/-- VULNERABLE record for the signature branch. -/
def sqlSigVulnCore (payload : String) : ResultCore :=
  ⟨"SQL Injection - Login", .VULNERABLE, .critical,
    "SQL error detected with payload: " ++ payload⟩

/-- VULNERABLE record for the 200-with-token bypass branch. -/
def sqlBypassVulnCore (payload : String) : ResultCore :=
  ⟨"SQL Injection - Authentication Bypass", .VULNERABLE, .critical,
    "Authentication bypassed with payload: " ++ payload⟩

/-- ERROR record for a transport error on one payload. -/
def sqlErrCore (payload e : String) : ResultCore :=
  ⟨"SQL Injection Test Error", .ERROR, .low,
    "Error testing payload " ++ payload ++ ": " ++ e⟩

/-- SECURE record when the payload set is exhausted without a match. -/
def sqlSecureCore : ResultCore :=
  ⟨"SQL Injection - Login", .SECURE, .info,
    "No SQL injection vulnerabilities detected in login endpoint"⟩

/-- The payload loop of `test_sql_injection`: per payload, a transport error
logs ERROR and continues; a database-error signature in the lowercased body
logs VULNERABLE/critical and returns; otherwise status 200 with `token` in
the body logs the bypass VULNERABLE/critical and returns; exhaustion logs
SECURE.  Also returns the number of payloads actually submitted. -/
def sqlLoop (respond : Target) : List String → List ResultCore × Nat
  | [] => ([sqlSecureCore], 0)
  | p :: ps =>
    match respond (sqlRequest p) with
    | .error e => (sqlErrCore p e :: (sqlLoop respond ps).1, (sqlLoop respond ps).2 + 1)
    | .ok resp =>
      if sigMatchResp resp then
        ([sqlSigVulnCore p], 1)
      else if resp.status_code = 200 ∧ strContains resp.text "token" = true then
        ([sqlBypassVulnCore p], 1)
      else
        ((sqlLoop respond ps).1, (sqlLoop respond ps).2 + 1)

/-- `PenetrationTester.test_sql_injection`. -/
def test_sql_injection (respond : Target) : List ResultCore :=
  (sqlLoop respond sql_payloads).1

/-- Number of SQL payloads actually submitted in a run. -/
def sqlAttempts (respond : Target) : Nat :=
  (sqlLoop respond sql_payloads).2

theorem leadsWith_refl : ∀ l : List Char, leadsWith l l = true := by
  intro l
  induction l with
  | nil => rfl
  | cons a l ih => simp [leadsWith, ih]

theorem hasSub_of_leadsWith (pat s : List Char) (h : leadsWith pat s = true) :
    hasSub pat s = true := by
  cases s with
  | nil => simpa [hasSub] using h
  | cons b s => simp [hasSub, h]

theorem hasSub_append_left : ∀ (a s pat : List Char), hasSub pat s = true →
    hasSub pat (a ++ s) = true := by
  intro a
  induction a with
  | nil => intro s pat h; simpa using h
  | cons c a ih =>
    intro s pat h
    simp only [List.cons_append, hasSub, Bool.or_eq_true]
    exact Or.inr (ih s pat h)

theorem strContains_append (a p : String) : strContains (a ++ p) p = true := by
  unfold strContains
  rw [String.data_append]
  exact hasSub_append_left a.data p.data p.data
    (hasSub_of_leadsWith p.data p.data (leadsWith_refl p.data))

theorem sqlLoop_sig (respond : Target) :
    ∀ (ps : List String) (i : Nat) (hi : i < ps.length),
      i < (sqlLoop respond ps).2 →
      sigMatches (respond (sqlRequest (ps.get ⟨i, hi⟩))) = true →
      (sqlLoop respond ps).2 = i + 1
      ∧ (sqlLoop respond ps).1.countP (fun r => r.status == Status.VULNERABLE) = 1
      ∧ sqlSigVulnCore (ps.get ⟨i, hi⟩) ∈ (sqlLoop respond ps).1 := by
  intro ps
  induction ps with
  | nil => intro i hi; simp at hi
  | cons p ps ih =>
    intro i hi hsub hsig
    cases hresp : respond (sqlRequest p) with
    | error e =>
      cases i with
      | zero =>
        simp only [List.get] at hsig
        rw [hresp] at hsig
        simp [sigMatches] at hsig
      | succ j =>
        simp only [List.get] at hsig
        have hi' : j < ps.length := Nat.lt_of_succ_lt_succ hi
        have hsub' : j < (sqlLoop respond ps).2 := by
          simp only [sqlLoop, hresp] at hsub
          omega
        obtain ⟨h1, h2, h3⟩ := ih j hi' hsub' hsig
        refine ⟨?_, ?_, ?_⟩
        · simp only [sqlLoop, hresp, h1]
        · simp only [sqlLoop, hresp, List.countP_cons, h2]
          simp [sqlErrCore]
        · simp only [sqlLoop, hresp, List.get]
          exact List.mem_cons_of_mem _ h3
    | ok resp =>
      by_cases hsigB : sigMatchResp resp
      · cases i with
        | zero =>
          refine ⟨?_, ?_, ?_⟩ <;> simp [sqlLoop, hresp, hsigB, sqlSigVulnCore]
        | succ j =>
          simp only [sqlLoop, hresp, if_pos hsigB] at hsub
          omega
      · by_cases hbyp : resp.status_code = 200 ∧ strContains resp.text "token" = true
        · cases i with
          | zero =>
            simp only [List.get] at hsig
            rw [hresp] at hsig
            simp only [sigMatches] at hsig
            exact absurd hsig hsigB
          | succ j =>
            simp only [sqlLoop, hresp, if_neg hsigB, if_pos hbyp] at hsub
            omega
        · cases i with
          | zero =>
            simp only [List.get] at hsig
            rw [hresp] at hsig
            simp only [sigMatches] at hsig
            exact absurd hsig hsigB
          | succ j =>
            simp only [List.get] at hsig
            have hi' : j < ps.length := Nat.lt_of_succ_lt_succ hi
            have hsub' : j < (sqlLoop respond ps).2 := by
              simp only [sqlLoop, hresp, if_neg hsigB, if_neg hbyp] at hsub
              omega
            obtain ⟨h1, h2, h3⟩ := ih j hi' hsub' hsig
            refine ⟨?_, ?_, ?_⟩
            · simp only [sqlLoop, hresp, if_neg hsigB, if_neg hbyp, h1]
            · simp only [sqlLoop, hresp, if_neg hsigB, if_neg hbyp, h2]
            · simp only [sqlLoop, hresp, if_neg hsigB, if_neg hbyp, List.get]
              exact h3

/-- C2: if the i-th SQL payload is submitted and its response body contains
(case-insensitively) one of the fixed database-error signatures, then the
probe stops right after it (payload i is the last one submitted), and the
whole result list holds exactly one VULNERABLE result, which is
VULNERABLE/critical with that payload contained in its details. -/
theorem sql_injection_first_match (respond : Target) (i : Nat)
    (hi : i < sql_payloads.length)
    (hsub : i < sqlAttempts respond)
    (hsig : sigMatches (respond (sqlRequest (sql_payloads.get ⟨i, hi⟩))) = true) :
    sqlAttempts respond = i + 1
    ∧ (test_sql_injection respond).countP (fun r => r.status == Status.VULNERABLE) = 1
    ∧ ∃ r ∈ test_sql_injection respond,
        r.status = Status.VULNERABLE ∧ r.severity = Severity.critical
        ∧ strContains r.details (sql_payloads.get ⟨i, hi⟩) = true := by
  obtain ⟨h1, h2, h3⟩ := sqlLoop_sig respond sql_payloads i hi hsub hsig
  exact ⟨h1, h2, sqlSigVulnCore (sql_payloads.get ⟨i, hi⟩), h3, rfl, rfl,
    strContains_append "SQL error detected with payload: " (sql_payloads.get ⟨i, hi⟩)⟩

/-- Stub target whose every response carries a MySQL error signature. -/
def sqlSigTarget : Target :=
  fun _ => .ok ⟨500, "You have an error in your SQL syntax", [], .error "no json"⟩

theorem sql_injection_first_match_witness :
    sqlAttempts sqlSigTarget = 0 + 1
    ∧ (test_sql_injection sqlSigTarget).countP (fun r => r.status == Status.VULNERABLE) = 1
    ∧ ∃ r ∈ test_sql_injection sqlSigTarget,
        r.status = Status.VULNERABLE ∧ r.severity = Severity.critical
        ∧ strContains r.details (sql_payloads.get ⟨0, by decide⟩) = true :=
  sql_injection_first_match sqlSigTarget 0 (by decide) (by decide) (by decide)

/-! ## Authorization-bypass probe (`test_authorization_bypass`) -/

/-- The fixed list of privileged endpoints probed without authentication. -/
def admin_endpoints : List String :=
  ["/api/admin/users",
   "/api/admin/system/health",
   "/api/admin/analytics",
   "/api/admin/settings"]

/-- The unauthenticated GET issued for one admin endpoint. -/
def authzRequest (endpoint : String) : Request :=
  ⟨"GET", endpoint, [], none⟩

/-- VULNERABLE record for an admin endpoint answering 200. -/
def authzVulnCore (endpoint : String) : ResultCore :=
  ⟨"Authorization Bypass", .VULNERABLE, .critical,
    "Admin endpoint accessible without authentication: " ++ endpoint⟩

/-- SECURE record for an admin endpoint answering 401 or 403. -/
def authzSecureCore (endpoint : String) : ResultCore :=
  ⟨"Authorization Check", .SECURE, .info,
    "Admin endpoint properly protected: " ++ endpoint⟩

/-- ERROR record for a transport error on one admin endpoint. -/
def authzErrCore (endpoint e : String) : ResultCore :=
  ⟨"Authorization Test Error", .ERROR, .low,
    "Error testing endpoint " ++ endpoint ++ ": " ++ e⟩

/-- The per-endpoint body of the authorization-bypass loop: 200 logs
VULNERABLE/critical, 401/403 logs SECURE/info, any other status logs
nothing, a transport error logs ERROR/low; the loop never stops early. -/
def authzResultFor (respond : Target) (endpoint : String) : List ResultCore :=
  match respond (authzRequest endpoint) with
  | .error e => [authzErrCore endpoint e]
  | .ok resp =>
    if resp.status_code = 200 then
      [authzVulnCore endpoint]
    else if resp.status_code = 401 ∨ resp.status_code = 403 then
      [authzSecureCore endpoint]
    else
      []

/-- The endpoint loop of `test_authorization_bypass`, also recording the
endpoints requested, in order. -/
def authzLoop (respond : Target) : List String → List ResultCore × List String
  | [] => ([], [])
  | endpoint :: rest =>
    (authzResultFor respond endpoint ++ (authzLoop respond rest).1,
      endpoint :: (authzLoop respond rest).2)

/-- `PenetrationTester.test_authorization_bypass`: results and the request
trace (which endpoints were issued a GET, in order). -/
def test_authorization_bypass (respond : Target) : List ResultCore × List String :=
  authzLoop respond admin_endpoints

theorem authzLoop_trace (respond : Target) :
    ∀ es : List String, (authzLoop respond es).2 = es := by
  intro es
  induction es with
  | nil => rfl
  | cons e es ih => simp [authzLoop, ih]

theorem authzLoop_results (respond : Target) :
    ∀ es : List String,
      (authzLoop respond es).1 = (es.map (authzResultFor respond)).flatten := by
  intro es
  induction es with
  | nil => rfl
  | cons e es ih => simp [authzLoop, ih]

/-- Did this endpoint's unauthenticated GET complete with the given
status code? -/
def authzStatusIs (respond : Target) (endpoint : String) (code : Nat) : Bool :=
  match respond (authzRequest endpoint) with
  | .ok resp => resp.status_code == code
  | .error _ => false

theorem countP_flatten_filter {α : Type} (p : ResultCore → Bool) (q : α → Bool)
    (f : α → List ResultCore) :
    ∀ l : List α, (∀ e ∈ l, (f e).countP p = if q e then 1 else 0) →
      ((l.map f).flatten).countP p = (l.filter q).length := by
  intro l
  induction l with
  | nil => intro _; rfl
  | cons e l ih =>
    intro h
    have he := h e (List.mem_cons_self e l)
    have hl := ih (fun x hx => h x (List.mem_cons_of_mem e hx))
    simp only [List.map_cons, List.flatten_cons, List.countP_append, List.filter_cons]
    rw [hl, he]
    by_cases hq : q e = true
    · simp [hq]
      omega
    · simp [hq]

theorem authzResultFor_countV (respond : Target) (e : String) :
    (authzResultFor respond e).countP (fun r => r.status == Status.VULNERABLE)
      = if authzStatusIs respond e 200 then 1 else 0 := by
  unfold authzResultFor authzStatusIs
  cases hresp : respond (authzRequest e) with
  | error msg => simp [authzErrCore]
  | ok resp =>
    by_cases h200 : resp.status_code = 200
    · simp [h200, authzVulnCore]
    · by_cases h4x : resp.status_code = 401 ∨ resp.status_code = 403
      · simp [if_neg h200, h4x, authzSecureCore, h200]
      · simp [if_neg h200, if_neg h4x, h200]

theorem authzResultFor_countS (respond : Target) (e : String) :
    (authzResultFor respond e).countP (fun r => r.status == Status.SECURE)
      = if authzStatusIs respond e 401 || authzStatusIs respond e 403 then 1 else 0 := by
  unfold authzResultFor authzStatusIs
  cases hresp : respond (authzRequest e) with
  | error msg => simp [authzErrCore]
  | ok resp =>
    by_cases h200 : resp.status_code = 200
    · have h401 : resp.status_code ≠ 401 := by omega
      have h403 : resp.status_code ≠ 403 := by omega
      simp [h200, authzVulnCore, h401, h403]
    · by_cases h4x : resp.status_code = 401 ∨ resp.status_code = 403
      · have hbeq : (resp.status_code == 401 || resp.status_code == 403) = true := by
          rcases h4x with h | h <;> simp [h]
        simp [if_neg h200, h4x, authzSecureCore, hbeq]
      · have h401 : resp.status_code ≠ 401 := fun h => h4x (Or.inl h)
        have h403 : resp.status_code ≠ 403 := fun h => h4x (Or.inr h)
        simp [if_neg h200, if_neg h4x, h401, h403]

/-- C6: the authorization-bypass probe requests every fixed admin endpoint
exactly once, in the declared order, regardless of any earlier findings;
its result list is the in-order concatenation of the per-endpoint
verdicts — one VULNERABLE/critical on status 200, one SECURE/info on
status 401 or 403, and no result on any other status — so the run's
VULNERABLE count equals the number of endpoints answering 200 and its
SECURE count the number answering 401 or 403, each endpoint contributing
independently of the others. -/
theorem authorization_bypass_per_endpoint (respond : Target) :
    (test_authorization_bypass respond).2 = admin_endpoints
    ∧ (∀ e ∈ admin_endpoints, (test_authorization_bypass respond).2.count e = 1)
    ∧ (test_authorization_bypass respond).1
        = (admin_endpoints.map (authzResultFor respond)).flatten
    ∧ ((test_authorization_bypass respond).1.countP
          (fun r => r.status == Status.VULNERABLE)
        = (admin_endpoints.filter (fun e => authzStatusIs respond e 200)).length)
    ∧ ((test_authorization_bypass respond).1.countP
          (fun r => r.status == Status.SECURE)
        = (admin_endpoints.filter (fun e =>
            authzStatusIs respond e 401 || authzStatusIs respond e 403)).length)
    ∧ (∀ endpoint resp, respond (authzRequest endpoint) = .ok resp →
        (resp.status_code = 200 →
          authzResultFor respond endpoint = [authzVulnCore endpoint])
        ∧ (resp.status_code = 401 ∨ resp.status_code = 403 →
          authzResultFor respond endpoint = [authzSecureCore endpoint])
        ∧ (resp.status_code ≠ 200 → resp.status_code ≠ 401 → resp.status_code ≠ 403 →
          authzResultFor respond endpoint = [])) := by
  refine ⟨authzLoop_trace respond admin_endpoints, ?_,
    authzLoop_results respond admin_endpoints, ?_, ?_, ?_⟩
  · intro e he
    unfold test_authorization_bypass
    rw [authzLoop_trace respond admin_endpoints]
    fin_cases he <;> decide
  · unfold test_authorization_bypass
    rw [authzLoop_results respond admin_endpoints]
    exact countP_flatten_filter _ _ _ admin_endpoints
      (fun e _ => authzResultFor_countV respond e)
  · unfold test_authorization_bypass
    rw [authzLoop_results respond admin_endpoints]
    exact countP_flatten_filter _ _ _ admin_endpoints
      (fun e _ => authzResultFor_countS respond e)
  · intro endpoint resp hresp
    refine ⟨?_, ?_, ?_⟩
    · intro h200
      simp [authzResultFor, hresp, h200]
    · intro h4x
      have hne200 : ¬ resp.status_code = 200 := by
        rcases h4x with h | h <;> omega
      simp [authzResultFor, hresp, if_neg hne200, h4x]
    · intro h200 h401 h403
      have h4x : ¬ (resp.status_code = 401 ∨ resp.status_code = 403) := by
        rintro (h | h) <;> omega
      simp [authzResultFor, hresp, if_neg h200, if_neg h4x]

/-- Stub target: 200 on `/api/admin/users`, 403 on everything else. -/
def authzMixedTarget : Target :=
  fun req => if req = authzRequest "/api/admin/users" then .ok (respOf 200) else .ok (respOf 403)

theorem authorization_bypass_per_endpoint_witness :
    (test_authorization_bypass authzMixedTarget).2 = admin_endpoints
    ∧ authzResultFor authzMixedTarget "/api/admin/users"
        = [authzVulnCore "/api/admin/users"]
    ∧ authzResultFor authzMixedTarget "/api/admin/settings"
        = [authzSecureCore "/api/admin/settings"]
    ∧ (test_authorization_bypass authzMixedTarget).1.countP
        (fun r => r.status == Status.VULNERABLE) = 1
    ∧ (test_authorization_bypass authzMixedTarget).1.countP
        (fun r => r.status == Status.SECURE) = 3 :=
  ⟨(authorization_bypass_per_endpoint authzMixedTarget).1,
   ((authorization_bypass_per_endpoint authzMixedTarget).2.2.2.2.2 "/api/admin/users"
     (respOf 200) (by decide)).1 (by decide),
   ((authorization_bypass_per_endpoint authzMixedTarget).2.2.2.2.2 "/api/admin/settings"
     (respOf 403) (by decide)).2.1 (by decide),
   ((authorization_bypass_per_endpoint authzMixedTarget).2.2.2.1).trans (by decide),
   ((authorization_bypass_per_endpoint authzMixedTarget).2.2.2.2.1).trans (by decide)⟩

/-! ## Security-headers probe (`test_security_headers`)

Header lookup is by exact name; `requests`' response dict is
case-insensitive, so we model targets that answer with the canonical
header casing the script checks for. -/

/-- The bare GET to the base URL issued by the headers probe. -/
def rootRequest : Request :=
  ⟨"GET", "", [], none⟩

/-- Expected value of one entry of the `security_headers` dict: an exact
string, a list of allowed values, or `None` (presence only). -/
inductive HeaderExpect where
  | exact (v : String)
  | oneOf (vs : List String)
  | presence
deriving DecidableEq, Repr

/-- The `security_headers` dict of the script, in insertion order. -/
def security_headers : List (String × HeaderExpect) :=
  [("X-Content-Type-Options", .exact "nosniff"),
   ("X-Frame-Options", .oneOf ["DENY", "SAMEORIGIN"]),
   ("X-XSS-Protection", .exact "1; mode=block"),
   ("Strict-Transport-Security", .presence),
   ("Content-Security-Policy", .presence),
   ("Referrer-Policy", .presence)]

/-- Look a header up by name. -/
def headerLookup (hdrs : List (String × String)) (name : String) : Option String :=
  List.lookup name hdrs

/-- What one loop iteration of the headers check appends to
`missing_headers`: the bare name when the header is absent, the name
tagged `(incorrect value)` on a mismatch, nothing otherwise. -/
def offenderEntry (hdrs : List (String × String)) : String × HeaderExpect → Option String
  | (name, exp) =>
    match headerLookup hdrs name with
    | none => some name
    | some v =>
      match exp with
      | .presence => none
      | .oneOf vs => if v ∈ vs then none else some (name ++ " (incorrect value)")
      | .exact ev => if v = ev then none else some (name ++ " (incorrect value)")

/-- Append the optional offender of one entry to the accumulator (the body
of the loop building `missing_headers`). -/
def accOpt {α β : Type} (f : α → Option β) (acc : List β) (e : α) : List β :=
  match f e with
  | some s => acc ++ [s]
  | none => acc

/-- The `missing_headers` list accumulated by the loop over
`security_headers.items()`. -/
def missing_headers (hdrs : List (String × String)) : List String :=
  security_headers.foldl (accOpt (offenderEntry hdrs)) []

/-- Combined VULNERABLE record naming every offending header. -/
def headersVulnCore (missing : List String) : ResultCore :=
  ⟨"Security Headers", .VULNERABLE, .medium,
    "Missing or incorrect security headers: " ++ String.intercalate ", " missing⟩

/-- SECURE record when no header is missing or incorrect. -/
def headersSecureCore : ResultCore :=
  ⟨"Security Headers", .SECURE, .info,
    "All important security headers present and configured correctly"⟩

/-- ERROR record for a transport error on the headers request. -/
def headersErrCore (e : String) : ResultCore :=
  ⟨"Security Headers Test Error", .ERROR, .low,
    "Error testing security headers: " ++ e⟩

/-- Verdict of the headers probe on a completed response. -/
def securityHeadersCheck (resp : Response) : List ResultCore :=
  if missing_headers resp.headers ≠ [] then
    [headersVulnCore (missing_headers resp.headers)]
  else
    [headersSecureCore]

/-- `PenetrationTester.test_security_headers`. -/
def test_security_headers (respond : Target) : List ResultCore :=
  match respond rootRequest with
  | .error e => [headersErrCore e]
  | .ok resp => securityHeadersCheck resp

/-- Is one table entry satisfied by the response headers? -/
def headerOk (hdrs : List (String × String)) (entry : String × HeaderExpect) : Bool :=
  match headerLookup hdrs entry.1 with
  | none => false
  | some v =>
    match entry.2 with
    | .presence => true
    | .oneOf vs => vs.contains v
    | .exact ev => v == ev

theorem offenderEntry_none_iff (hdrs : List (String × String))
    (entry : String × HeaderExpect) :
    offenderEntry hdrs entry = none ↔ headerOk hdrs entry = true := by
  obtain ⟨name, exp⟩ := entry
  cases hlook : headerLookup hdrs name with
  | none => simp [offenderEntry, headerOk, hlook]
  | some v =>
    cases exp with
    | presence => simp [offenderEntry, headerOk, hlook]
    | oneOf vs =>
      by_cases hv : v ∈ vs <;> simp [offenderEntry, headerOk, hlook, hv]
    | exact ev =>
      by_cases hv : v = ev <;> simp [offenderEntry, headerOk, hlook, hv]

theorem foldl_accOpt_eq_filterMap {α β : Type} (f : α → Option β) :
    ∀ (l : List α) (acc : List β),
      l.foldl (accOpt f) acc = acc ++ l.filterMap f := by
  intro l
  induction l with
  | nil => intro acc; simp
  | cons e l ih =>
    intro acc
    simp only [List.foldl_cons, List.filterMap_cons]
    cases hf : f e with
    | none => simp [accOpt, hf, ih]
    | some s => simp [accOpt, hf, ih]

theorem missing_headers_eq_filterMap (hdrs : List (String × String)) :
    missing_headers hdrs = security_headers.filterMap (offenderEntry hdrs) := by
  unfold missing_headers
  rw [foldl_accOpt_eq_filterMap]
  simp

/-- C5 (amended): the probe checks the six-entry table `security_headers`
(the five of the claim plus `X-XSS-Protection: 1; mode=block`): if every
entry is satisfied it emits exactly one SECURE/info result, otherwise
exactly one combined VULNERABLE/medium result listing, in table order, the
name of every offending header (tagged `(incorrect value)` on a
mismatch). -/
theorem security_headers_table_check (resp : Response) :
    ((∀ entry ∈ security_headers, headerOk resp.headers entry = true) →
      securityHeadersCheck resp = [headersSecureCore])
    ∧ ((¬ ∀ entry ∈ security_headers, headerOk resp.headers entry = true) →
      securityHeadersCheck resp
        = [headersVulnCore (security_headers.filterMap (offenderEntry resp.headers))])
    ∧ (∀ respond : Target, respond rootRequest = .ok resp →
      test_security_headers respond = securityHeadersCheck resp) := by
  refine ⟨?_, ?_, ?_⟩
  · intro hall
    have hnil : missing_headers resp.headers = [] := by
      rw [missing_headers_eq_filterMap]
      rw [List.filterMap_eq_nil_iff]
      intro entry hmem
      exact (offenderEntry_none_iff resp.headers entry).mpr (hall entry hmem)
    simp [securityHeadersCheck, hnil]
  · intro hnotall
    have hne : missing_headers resp.headers ≠ [] := by
      rw [missing_headers_eq_filterMap]
      intro hnil
      rw [List.filterMap_eq_nil_iff] at hnil
      exact hnotall (fun entry hmem =>
        (offenderEntry_none_iff resp.headers entry).mp (hnil entry hmem))
    unfold securityHeadersCheck
    rw [if_pos hne, missing_headers_eq_filterMap]
  · intro respond hresp
    simp [test_security_headers, hresp]

/-- Headers satisfying the claim's five checks but not the code's sixth. -/
def fiveOkHeaders : List (String × String) :=
  [("X-Content-Type-Options", "nosniff"),
   ("X-Frame-Options", "DENY"),
   ("Strict-Transport-Security", "max-age=63072000"),
   ("Content-Security-Policy", "default-src none"),
   ("Referrer-Policy", "no-referrer")]

/-- A response carrying exactly the five spec-table headers, all valid. -/
def fiveOkResp : Response :=
  ⟨200, "", fiveOkHeaders, .error "no body"⟩

/-- `fiveOkHeaders` plus a valid `X-XSS-Protection`, satisfying the code's
whole table. -/
def sixOkResp : Response :=
  ⟨200, "", ("X-XSS-Protection", "1; mode=block") :: fiveOkHeaders, .error "no body"⟩

/-- The five checks of the claim, written from the spec's words: exact
`X-Content-Type-Options: nosniff`, `X-Frame-Options` in {DENY, SAMEORIGIN},
and presence of `Strict-Transport-Security`, `Content-Security-Policy` and
`Referrer-Policy`. -/
def specFiveHeaderChecks (hdrs : List (String × String)) : Bool :=
  (headerLookup hdrs "X-Content-Type-Options" == some "nosniff")
  && (match headerLookup hdrs "X-Frame-Options" with
      | some v => ["DENY", "SAMEORIGIN"].contains v
      | none => false)
  && (headerLookup hdrs "Strict-Transport-Security").isSome
  && (headerLookup hdrs "Content-Security-Policy").isSome
  && (headerLookup hdrs "Referrer-Policy").isSome

/-- C5 counterexample: a response satisfying the claim's five checks on
which the probe nevertheless emits a VULNERABLE/medium result (naming
`X-XSS-Protection`) and no SECURE result: the code checks a sixth header
the claim omits. -/
theorem security_headers_five_checks_insufficient :
    specFiveHeaderChecks fiveOkResp.headers = true
    ∧ securityHeadersCheck fiveOkResp = [headersVulnCore ["X-XSS-Protection"]]
    ∧ (securityHeadersCheck fiveOkResp).countP (fun r => r.status == Status.SECURE) = 0 := by
  decide

theorem security_headers_table_check_witness :
    securityHeadersCheck sixOkResp = [headersSecureCore] :=
  (security_headers_table_check sixOkResp).1 (by decide)

/-! ## Severity tally (`generate_report`) -/

/-- The severity-key strings of `log_result` dicts. -/
def sevName : Severity → String
  | .critical => "critical"
  | .high => "high"
  | .medium => "medium"
  | .low => "low"
  | .info => "info"

/-- One iteration of the counting loop: increment the entry for `key` when
present, do nothing otherwise (`if severity in severity_counts`). -/
def bumpCount (counts : List (String × Nat)) (key : String) : List (String × Nat) :=
  counts.map (fun p => if p.1 = key then (p.1, p.2 + 1) else p)

/-- The `severity_counts` tally computed at the top of `generate_report`:
keys critical/high/medium/low only, each counting every result of that
severity regardless of its status. -/
def severity_counts (results : List ProbeResult) : List (String × Nat) :=
  results.foldl (fun counts r => bumpCount counts (sevName r.severity))
    [("critical", 0), ("high", 0), ("medium", 0), ("low", 0)]

theorem severity_counts_foldl :
    ∀ (results : List ProbeResult) (a b c d : Nat),
      results.foldl (fun counts r => bumpCount counts (sevName r.severity))
        [("critical", a), ("high", b), ("medium", c), ("low", d)]
      = [("critical", a + results.countP (fun r => r.severity == Severity.critical)),
         ("high", b + results.countP (fun r => r.severity == Severity.high)),
         ("medium", c + results.countP (fun r => r.severity == Severity.medium)),
         ("low", d + results.countP (fun r => r.severity == Severity.low))] := by
  intro results
  induction results with
  | nil => intro a b c d; simp
  | cons r rs ih =>
    intro a b c d
    rw [List.foldl_cons]
    cases hsev : r.severity
    case critical =>
      rw [show bumpCount [("critical", a), ("high", b), ("medium", c), ("low", d)]
          (sevName Severity.critical)
        = [("critical", a + 1), ("high", b), ("medium", c), ("low", d)] from rfl]
      rw [ih (a + 1) b c d]
      simp [List.countP_cons, hsev]
      try omega
    case high =>
      rw [show bumpCount [("critical", a), ("high", b), ("medium", c), ("low", d)]
          (sevName Severity.high)
        = [("critical", a), ("high", b + 1), ("medium", c), ("low", d)] from rfl]
      rw [ih a (b + 1) c d]
      simp [List.countP_cons, hsev]
      try omega
    case medium =>
      rw [show bumpCount [("critical", a), ("high", b), ("medium", c), ("low", d)]
          (sevName Severity.medium)
        = [("critical", a), ("high", b), ("medium", c + 1), ("low", d)] from rfl]
      rw [ih a b (c + 1) d]
      simp [List.countP_cons, hsev]
      try omega
    case low =>
      rw [show bumpCount [("critical", a), ("high", b), ("medium", c), ("low", d)]
          (sevName Severity.low)
        = [("critical", a), ("high", b), ("medium", c), ("low", d + 1)] from rfl]
      rw [ih a b c (d + 1)]
      simp [List.countP_cons, hsev]
      try omega
    case info =>
      rw [show bumpCount [("critical", a), ("high", b), ("medium", c), ("low", d)]
          (sevName Severity.info)
        = [("critical", a), ("high", b), ("medium", c), ("low", d)] from rfl]
      rw [ih a b c d]
      simp [List.countP_cons, hsev]
      try omega

/-- An ERROR/low record, e.g. a logged brute-force transport error. -/
def errorLowResult : ProbeResult :=
  ⟨0, "Authentication Test Error", .ERROR, .low, "Error during brute force test: timeout"⟩

/-- C7 counterexample: on a result list holding one ERROR/low record the
tally's `low` entry is 1 although the list has no VULNERABLE result of
severity low — the tally counts results of every status, not only
VULNERABLE ones — and the tally has no `info` key at all, so it does not
cover every severity of the enum. -/
theorem severity_tally_not_vulnerable_only :
    List.lookup "low" (severity_counts [errorLowResult]) = some 1
    ∧ ([errorLowResult].countP
        (fun r => r.status == Status.VULNERABLE && r.severity == Severity.low)) = 0
    ∧ List.lookup "info" (severity_counts [errorLowResult]) = none := by
  decide

/-- C7 (amended): the tally handed to the report generator is derived
solely from the collected result list; it maps each of the four keys
critical, high, medium and low — severity `info` has no entry — to the
number of results of that severity regardless of status. -/
theorem severity_tally_by_severity (results : List ProbeResult) :
    severity_counts results
      = [("critical", results.countP (fun r => r.severity == Severity.critical)),
         ("high", results.countP (fun r => r.severity == Severity.high)),
         ("medium", results.countP (fun r => r.severity == Severity.medium)),
         ("low", results.countP (fun r => r.severity == Severity.low))] := by
  have h := severity_counts_foldl results 0 0 0 0
  simpa [severity_counts] using h

/-! ## Authenticate contract (C8) -/

/-- Stub target: every request fails at the transport level. -/
def connErrTarget : Target :=
  fun _ => .error "Connection refused"

/-- C8 counterexample: on a transport error `authenticate` appends one
ERROR/low result to the collector, so it is not free of side effects on
the result list. -/
theorem authenticate_appends_on_transport_error :
    (authenticate connErrTarget).2 = [authErrCore "Connection refused"]
    ∧ (authenticate connErrTarget).2.length ≠ 0 := by
  decide

/-- C8 (amended): `authenticate` never raises and returns a failure value
on any non-200 status, on a 200 response without a usable token field, and
on a transport error; it appends nothing to the result collector on the
non-200 and parsed-200 paths, and appends exactly one ERROR/low result
when an exception is caught (transport error, or unparseable 200 body) —
never more than one result in any run. -/
theorem authenticate_contract (respond : Target) :
    (authenticate respond).2.length ≤ 1
    ∧ (∀ e, respond authRequest = .error e →
        authenticate respond = (none, [authErrCore e]))
    ∧ (∀ resp, respond authRequest = .ok resp → resp.status_code ≠ 200 →
        authenticate respond = (none, []))
    ∧ (∀ resp e, respond authRequest = .ok resp → resp.status_code = 200 →
        resp.jsonBody = .error e →
        authenticate respond = (none, [authErrCore e]))
    ∧ (∀ resp obj, respond authRequest = .ok resp → resp.status_code = 200 →
        resp.jsonBody = .ok obj →
        authenticate respond = (tokenOf obj, [])) := by
  refine ⟨?_, ?_, ?_, ?_, ?_⟩
  · unfold authenticate
    cases hresp : respond authRequest with
    | error e => simp
    | ok resp =>
      by_cases h200 : resp.status_code = 200
      · cases hj : resp.jsonBody <;> simp [h200, hj]
      · simp [h200]
  · intro e hresp
    simp [authenticate, hresp]
  · intro resp hresp h200
    simp [authenticate, hresp, h200]
  · intro resp e hresp h200 hjson
    simp [authenticate, hresp, h200, hjson]
  · intro resp obj hresp h200 hjson
    simp [authenticate, hresp, h200, hjson]

theorem authenticate_contract_witness :
    authenticate connErrTarget = (none, [authErrCore "Connection refused"]) :=
  (authenticate_contract connErrTarget).2.1 "Connection refused" rfl

/-! ## XSS probe (`test_xss_vulnerabilities`) -/

/-- `self.xss_payloads` from the script. -/
def xss_payloads : List String :=
  ["<script>alert('XSS')</script>",
   "<img src=x onerror=alert('XSS')>",
   "javascript:alert('XSS')",
   "<svg onload=alert('XSS')>",
   "';alert('XSS');//"]

/-- The task-creation request for one XSS payload. -/
def xssRequest (token payload : String) : Request :=
  ⟨"POST", "/api/tasks",
    [("title", "Test Task " ++ payload),
     ("description", "Description with XSS: " ++ payload),
     ("projectId", "123")],
    some ("Bearer " ++ token)⟩

/-- VULNERABLE record for a reflected XSS payload. -/
def xssVulnCore (payload : String) : ResultCore :=
  ⟨"XSS - Task Creation", .VULNERABLE, .high, "XSS payload reflected: " ++ payload⟩

/-- ERROR record for a transport error on one XSS payload. -/
def xssErrCore (payload e : String) : ResultCore :=
  ⟨"XSS Test Error", .ERROR, .low,
    "Error testing XSS payload " ++ payload ++ ": " ++ e⟩

/-- SECURE record when no payload is reflected. -/
def xssSecureCore : ResultCore :=
  ⟨"XSS - Task Creation", .SECURE, .info,
    "No XSS vulnerabilities detected in task creation"⟩

/-- SKIPPED record when authentication fails. -/
def xssSkippedCore : ResultCore :=
  ⟨"XSS Testing", .SKIPPED, .low, "Could not authenticate - skipping XSS tests"⟩

/-- The payload loop of `test_xss_vulnerabilities`: a reflected payload on
a 200/201 response logs VULNERABLE/high and returns; a transport error
logs ERROR and continues; exhaustion logs SECURE. -/
def xssLoop (respond : Target) (token : String) : List String → List ResultCore
  | [] => [xssSecureCore]
  | p :: ps =>
    match respond (xssRequest token p) with
    | .error e => xssErrCore p e :: xssLoop respond token ps
    | .ok resp =>
      if strContains resp.text p = true ∧ (resp.status_code = 200 ∨ resp.status_code = 201) then
        [xssVulnCore p]
      else
        xssLoop respond token ps

/-- `PenetrationTester.test_xss_vulnerabilities`. -/
def test_xss_vulnerabilities (respond : Target) : List ResultCore :=
  match authenticate respond with
  | (none, rs) => rs ++ [xssSkippedCore]
  | (some token, rs) => rs ++ xssLoop respond token xss_payloads

/-! ## Input-validation probe (`test_input_validation`) -/

/-- The 10000-character oversized input. -/
def large_string : String :=
  String.mk (List.replicate 10000 'A')

/-- The `endpoints_to_test` pairs of the script. -/
def endpoints_to_test : List (String × List (String × String)) :=
  [("/api/tasks", [("title", large_string), ("description", "test")]),
   ("/api/projects", [("name", large_string), ("description", "test")]),
   ("/api/users/profile", [("firstName", large_string), ("lastName", "test")])]

/-- The oversized-input POST for one endpoint. -/
def inputValRequest (token endpoint : String) (data : List (String × String)) : Request :=
  ⟨"POST", endpoint, data, some ("Bearer " ++ token)⟩

/-- VULNERABLE record for a 500 on oversized input. -/
def inputValVulnCore (endpoint : String) : ResultCore :=
  ⟨"Input Validation - Buffer Overflow", .VULNERABLE, .medium,
    "Server error with large input on " ++ endpoint⟩

/-- SECURE record for a clean 400 rejection. -/
def inputValSecureCore (endpoint : String) : ResultCore :=
  ⟨"Input Validation", .SECURE, .info, "Proper input validation on " ++ endpoint⟩

/-- ERROR record for a transport error on one endpoint. -/
def inputValErrCore (endpoint e : String) : ResultCore :=
  ⟨"Input Validation Test Error", .ERROR, .low,
    "Error testing " ++ endpoint ++ ": " ++ e⟩

/-- SKIPPED record when authentication fails. -/
def inputValSkippedCore : ResultCore :=
  ⟨"Input Validation Testing", .SKIPPED, .low,
    "Could not authenticate - skipping input validation tests"⟩

/-- The endpoint loop of `test_input_validation`: 500 logs VULNERABLE,
400 logs SECURE, any other status logs nothing; never stops early. -/
def inputValLoop (respond : Target) (token : String) :
    List (String × List (String × String)) → List ResultCore
  | [] => []
  | (endpoint, data) :: rest =>
    (match respond (inputValRequest token endpoint data) with
     | .error e => [inputValErrCore endpoint e]
     | .ok resp =>
       if resp.status_code = 500 then [inputValVulnCore endpoint]
       else if resp.status_code = 400 then [inputValSecureCore endpoint]
       else []) ++ inputValLoop respond token rest

/-- `PenetrationTester.test_input_validation`. -/
def test_input_validation (respond : Target) : List ResultCore :=
  match authenticate respond with
  | (none, rs) => rs ++ [inputValSkippedCore]
  | (some token, rs) => rs ++ inputValLoop respond token endpoints_to_test

/-! ## Session-management probe (`test_session_management`) -/

/-- Python's `str.split('.')`, written structurally over the characters. -/
def splitDotAux : List Char → List Char → List String
  | acc, [] => [String.mk acc.reverse]
  | acc, c :: rest =>
    if c = '.' then String.mk acc.reverse :: splitDotAux [] rest
    else splitDotAux (c :: acc) rest

/-- `token.split('.')`. -/
def pySplitDot (s : String) : List String :=
  splitDotAux [] s.data

/-- The authenticated profile request issued with the tampered token. -/
def profileRequest (tok : String) : Request :=
  ⟨"GET", "/api/users/profile", [], some ("Bearer " ++ tok)⟩

/-- VULNERABLE record when the signature-stripped token is accepted. -/
def jwtVulnCore : ResultCore :=
  ⟨"JWT Security", .VULNERABLE, .critical, "JWT token accepted without valid signature"⟩

/-- SECURE record when the tampered token is rejected. -/
def jwtSecureCore : ResultCore :=
  ⟨"JWT Security", .SECURE, .info, "JWT signature validation working properly"⟩

/-- ERROR record for a transport error during the tamper check. -/
def sessionErrCore (e : String) : ResultCore :=
  ⟨"Session Management Test Error", .ERROR, .low,
    "Error testing JWT security: " ++ e⟩

/-- The tamper check on an obtained token: with exactly three dot-separated
segments, request the profile with the signature segment erased; 200 logs
VULNERABLE/critical, any other status SECURE/info; a token of any other
shape logs nothing at all. -/
def sessionTamperCheck (respond : Target) (token : String) : List ResultCore :=
  match pySplitDot token with
  | [p0, p1, _p2] =>
    match respond (profileRequest (p0 ++ "." ++ p1 ++ ".")) with
    | .error e => [sessionErrCore e]
    | .ok resp =>
      if resp.status_code = 200 then [jwtVulnCore] else [jwtSecureCore]
  | _ => []

/-- `PenetrationTester.test_session_management`: on authentication failure
it returns with no result of its own (no SKIPPED record). -/
def test_session_management (respond : Target) : List ResultCore :=
  match authenticate respond with
  | (none, rs) => rs
  | (some token, rs) => rs ++ sessionTamperCheck respond token

/-! ## Information-disclosure probe (`test_information_disclosure`) -/

/-- The fixed list of sensitive-looking paths. -/
def sensitive_endpoints : List String :=
  ["/.env", "/config.json", "/package.json", "/api/debug",
   "/api/health", "/swagger.json", "/api-docs"]

/-- The fixed list of sensitive keyword substrings. -/
def sensitive_patterns : List String :=
  ["password", "secret", "key", "token", "database", "connection"]

/-- The unauthenticated GET for one sensitive path. -/
def infoRequest (endpoint : String) : Request :=
  ⟨"GET", endpoint, [], none⟩

/-- VULNERABLE record for a sensitive keyword in an accessible body. -/
def infoVulnCore (endpoint : String) : ResultCore :=
  ⟨"Information Disclosure", .VULNERABLE, .medium,
    "Sensitive information exposed at " ++ endpoint⟩

/-- INFO record for an accessible path with nothing sensitive. -/
def infoInfoCore (endpoint : String) : ResultCore :=
  ⟨"Information Disclosure", .INFO, .low,
    "Endpoint accessible but no sensitive data detected: " ++ endpoint⟩

/-- ERROR record for a transport error on one path. -/
def infoErrCore (endpoint e : String) : ResultCore :=
  ⟨"Information Disclosure Test Error", .ERROR, .low,
    "Error testing " ++ endpoint ++ ": " ++ e⟩

/-- Per-path verdict of the information-disclosure loop. -/
def infoDiscFor (respond : Target) (endpoint : String) : List ResultCore :=
  match respond (infoRequest endpoint) with
  | .error e => [infoErrCore endpoint e]
  | .ok resp =>
    if resp.status_code = 200 then
      if sensitive_patterns.any (fun pat => strContains (lowerString resp.text) pat) then
        [infoVulnCore endpoint]
      else
        [infoInfoCore endpoint]
    else
      []

/-- `PenetrationTester.test_information_disclosure`. -/
def test_information_disclosure (respond : Target) : List ResultCore :=
  (sensitive_endpoints.map (infoDiscFor respond)).flatten

/-! ## Auth-failure behavior of the dependent probes (C4) -/

/-- Stub target answering 401 everywhere, so authentication fails with no
exception. -/
def authFailTarget : Target :=
  fun _ => .ok (respOf 401)

/-- C4 counterexample: on authentication failure the session-management
probe emits no result at all — in particular no SKIPPED record — contrary
to the claim that every authentication-requiring probe surfaces a missing
token as SKIPPED. -/
theorem session_probe_silent_on_auth_failure :
    test_session_management authFailTarget = []
    ∧ (test_session_management authFailTarget).countP
        (fun r => r.status == Status.SKIPPED) = 0 := by
  decide

/-- C4 (amended): when authentication fails, the XSS and input-validation
probes each append exactly one SKIPPED/low record after whatever the
authentication attempt logged and return without issuing probe requests,
while the session-management probe returns silently, appending no record
of its own; none of the three crashes. -/
theorem auth_required_probes_on_auth_failure (respond : Target)
    (h : (authenticate respond).1 = none) :
    test_xss_vulnerabilities respond = (authenticate respond).2 ++ [xssSkippedCore]
    ∧ test_input_validation respond = (authenticate respond).2 ++ [inputValSkippedCore]
    ∧ test_session_management respond = (authenticate respond).2 := by
  have hpair : authenticate respond = (none, (authenticate respond).2) := by
    cases hq : authenticate respond with
    | mk tok rs =>
      rw [hq] at h
      simp at h
      rw [h]
  refine ⟨?_, ?_, ?_⟩
  · unfold test_xss_vulnerabilities
    rw [hpair]
  · unfold test_input_validation
    rw [hpair]
  · unfold test_session_management
    rw [hpair]

theorem auth_required_probes_on_auth_failure_witness :
    test_xss_vulnerabilities authFailTarget
        = (authenticate authFailTarget).2 ++ [xssSkippedCore]
    ∧ test_input_validation authFailTarget
        = (authenticate authFailTarget).2 ++ [inputValSkippedCore]
    ∧ test_session_management authFailTarget = (authenticate authFailTarget).2 :=
  auth_required_probes_on_auth_failure authFailTarget (by decide)

/-! ## Orchestrator (`run_all_tests`) -/

/-- The ERROR record the orchestrator logs when a module raises: tagged
`Test Error - {test_method.__name__}`. -/
def moduleErrCore (name e : String) : ResultCore :=
  ⟨"Test Error - " ++ name, .ERROR, .low, "Unexpected error: " ++ e⟩

/-- One iteration of the orchestrator loop over `test_methods`: a module
invocation yields the results it logged plus, when it raised, the
exception message; the wrapper turns the latter into one ERROR/low record
and never re-raises. -/
def wrapModule (name : String) (out : List ResultCore × Option String) : List ResultCore :=
  match out.2 with
  | none => out.1
  | some e => out.1 ++ [moduleErrCore name e]

/-- The orchestrator loop over named module outcomes, in order. -/
def runAllWith (outcomes : List (String × (List ResultCore × Option String))) :
    List ResultCore :=
  (outcomes.map (fun p => wrapModule p.1 p.2)).flatten

/-- The eight concrete modules of `run_all_tests`, in the declared order.
Each embedded probe is a total function, so none of them raises: every
outcome carries `none` as its exception component. -/
def moduleOutcomes (respond : Target) :
    List (String × (List ResultCore × Option String)) :=
  [("test_sql_injection", (test_sql_injection respond, none)),
   ("test_xss_vulnerabilities", (test_xss_vulnerabilities respond, none)),
   ("test_authentication_security", (test_authentication_security respond, none)),
   ("test_authorization_bypass", ((test_authorization_bypass respond).1, none)),
   ("test_input_validation", (test_input_validation respond, none)),
   ("test_session_management", (test_session_management respond, none)),
   ("test_information_disclosure", (test_information_disclosure respond, none)),
   ("test_security_headers", (test_security_headers respond, none))]

/-- The full run's result list before timestamps. -/
def runAllCore (respond : Target) : List ResultCore :=
  runAllWith (moduleOutcomes respond)

/-- `PenetrationTester.run_all_tests`: the collected result list of a full
run, with the n-th logged record stamped `ts n`. -/
def run_all_tests (ts : Nat → Nat) (respond : Target) : List ProbeResult :=
  attachTimestamps ts 0 (runAllCore respond)

/-- C1: the orchestrator executes every listed module: a module that
raises contributes the results it already logged plus exactly one
ERROR/low record tagged `Test Error - ` and the module's name, and the
wrapped outputs of all later modules still follow — no fault terminates
the run early.  The concrete run wires exactly the eight probe modules, in
the declared order. -/
theorem orchestrator_isolates_module_failures :
    (∀ (pre post : List (String × (List ResultCore × Option String)))
        (name e : String) (rs : List ResultCore),
      runAllWith (pre ++ (name, (rs, some e)) :: post)
        = runAllWith pre ++ rs ++ [moduleErrCore name e] ++ runAllWith post)
    ∧ (∀ respond : Target, (moduleOutcomes respond).map Prod.fst
        = ["test_sql_injection", "test_xss_vulnerabilities",
           "test_authentication_security", "test_authorization_bypass",
           "test_input_validation", "test_session_management",
           "test_information_disclosure", "test_security_headers"])
    ∧ (∀ respond : Target, (moduleOutcomes respond).length = 8)
    ∧ (∀ respond : Target, runAllCore respond = runAllWith (moduleOutcomes respond)) := by
  refine ⟨?_, ?_, ?_, ?_⟩
  · intro pre post name e rs
    simp [runAllWith, wrapModule, List.append_assoc]
  · intro respond
    rfl
  · intro respond
    rfl
  · intro respond
    rfl

theorem attachTimestamps_strip (ts : Nat → Nat) :
    ∀ (rs : List ResultCore) (n : Nat),
      (attachTimestamps ts n rs).map stripTimestamp = rs := by
  intro rs
  induction rs with
  | nil => intro n; rfl
  | cons r rs ih =>
    intro n
    simp [attachTimestamps, stripTimestamp, ih]

/-- C9: the full orchestration is deterministic in the target's responses:
two runs against the same deterministic target, differing only in the
clock supplying the timestamps, produce result lists that are equal
element-by-element once the timestamp field is erased. -/
theorem run_deterministic_up_to_timestamps (respond : Target) (ts₁ ts₂ : Nat → Nat) :
    (run_all_tests ts₁ respond).map stripTimestamp
      = (run_all_tests ts₂ respond).map stripTimestamp := by
  unfold run_all_tests
  rw [attachTimestamps_strip, attachTimestamps_strip]
